import Mathlib

/-!
Verification development for the kics scan pipeline (pkg/kics/service.go and the
Helm detector/resolver contracts).  Shallow embedding: Go byte slices are lists of
characters, `io.Reader` behaviour is a list of successive successful `Read` payloads
followed by a clean EOF, fallible Go functions return `Except`, and the stateful
scan service threads an explicit `SinkState`.
-/

/- ===== Character and string helpers (kernel-friendly replacements for the
   byte-level loops the Go code performs with strings.Split etc.) ===== -/

/-- Maps a decimal digit character to its value. -/
def charDigit (c : Char) : Option Nat :=
  if '0' ≤ c && c ≤ '9' then some (c.toNat - 48) else none

/-- Parses a non-empty all-digit character list as a natural number. -/
def digitsToNat : List Char → Option Nat
  | [] => none
  | cs => cs.foldl (fun acc c =>
      match acc, charDigit c with
      | some n, some d => some (n * 10 + d)
      | _, _ => none) (some 0)

/-- Splits a character list on a separator character; mirrors strings.Split. -/
def splitChar (c : Char) : List Char → List (List Char)
  | [] => [[]]
  | a :: rest =>
    let r := splitChar c rest
    if a == c then [] :: r
    else
      match r with
      | [] => [[a]]
      | h :: t => (a :: h) :: t

/-- Rejoins pieces with a separator character; inverse of `splitChar`. -/
def joinChar (c : Char) : List (List Char) → List Char
  | [] => []
  | [x] => x
  | x :: xs => x ++ c :: joinChar c xs

/-- The lines of a string, split on newline (a trailing newline yields a final empty line). -/
def strLines (s : String) : List String :=
  (splitChar '\n' s.data).map String.mk

/-- Whether the first list is an initial segment of the second. -/
def listIsPre : List Char → List Char → Bool
  | [], _ => true
  | a :: as, bs =>
    match bs with
    | [] => false
    | b :: bt => if a == b then listIsPre as bt else false

/-- Space or tab. -/
def isWS (c : Char) : Bool := c == ' ' || c == '\t'

/-- Number of leading whitespace characters of a line. -/
def indentOf (s : String) : Nat := (s.data.takeWhile isWS).length

/-- Strips leading and trailing whitespace. -/
def trimWS (s : String) : String :=
  String.mk (((s.data.dropWhile isWS).reverse.dropWhile isWS).reverse)

/- ===== getContent (pkg/kics/service.go, lines 148-168) =====
   The Go loop reads into a fixed 1 MiB buffer.  A reader is modelled as the list
   of payloads its successive successful `Read` calls return (each at most
   `chunkSize` bytes for a real reader), after which `Read` reports EOF.  The Go
   code checks `maxSizeMB < 0` at the top of every iteration, before the read,
   and decrements it once per successful read; on the limit error it returns an
   empty content pointer.  The second component of the result is the local
   `content` buffer at exit, i.e. the bytes the call accumulated in memory. -/

/-- 1048576, the fixed read-buffer size of `getContent`. -/
def chunkSize : Nat := 1048576

/-- The `getContent` read loop: `maxSizeMB` is the remaining budget (an int that
may go negative), `content` the accumulator. -/
def getContentAux : List (List Char) → Int → List Char → Except String (List Char) × List Char
  | [], m, content =>
    if m < 0 then (Except.error "file size limit exceeded", content)
    else (Except.ok content, content)
  | r :: rest, m, content =>
    if m < 0 then (Except.error "file size limit exceeded", content)
    else getContentAux rest (m - 1) (content ++ r)

/-- `getContent` of service.go: budget starts at `maxSizeMB = 5`. -/
def getContent (reads : List (List Char)) : Except String (List Char) × List Char :=
  getContentAux reads 5 []

/- ===== Data model (pkg/model, as used by service.go and the tests) ===== -/

/-- File kinds recognised by the scan (model.FileKind). -/
inductive FileKind where
  | terraform
  | kubernetes
  | cloudFormation
  | ansible
  | dockerfile
  | helm
  | common
deriving DecidableEq

/-- A parsed document; its internal tree shape is irrelevant to the claims, so it
is kept as an opaque payload. -/
structure Document where
  raw : String
deriving DecidableEq

/-- model.FileMetadata as built by StartScan.  Fields the Go code does not set
keep their Go zero values (empty string / nil map) as defaults. -/
structure FileMetadata where
  id : Nat
  scanID : String
  document : Document
  originalData : String
  kind : FileKind
  fileName : String
  content : String := ""
  helmID : String := ""
  idInfo : List (Nat × List (Nat × Nat)) := []
deriving DecidableEq

/-- model.RenderedFile: one rendered sub-document returned by a Resolver. -/
structure RenderedFile where
  fileName : String
  content : String
  originalData : String
  splitID : String
  idInfo : List (Nat × List (Nat × Nat)) := []
deriving DecidableEq

/-- A vulnerability record; its fields are irrelevant to the claims settled here. -/
structure Vuln where
  info : String
deriving DecidableEq

/-- The collaborators of `Service` (parser, storage, resolver, inspector) as the
scan service observes them: `parse` returns documents plus the detected kind or
an error; `marshalOk` is whether json.Marshal of a document succeeds;
`saveFileOk` is whether Storage.SaveFile succeeds; `saveVulns` is whether
Storage.SaveVulnerabilities succeeds; `resolve` is Resolver.Resolve and
`resolverGetType` is Resolver.GetType; `inspect` is Inspector.Inspect. -/
structure ScanEnv where
  parse : String → String → Except String (List Document × FileKind)
  marshalOk : Document → Bool
  saveFileOk : FileMetadata → Bool
  resolverGetType : String → FileKind
  resolve : String → FileKind → Except String (List RenderedFile)
  inspect : List FileMetadata → Except String (List Vuln)
  saveVulns : List Vuln → Bool

/-- The scan-local accumulator: the in-memory `files` list of StartScan plus a
fresh-id counter standing in for uuid.New. -/
structure SinkState where
  files : List FileMetadata
  nextID : Nat
deriving DecidableEq

/-- saveToFile (service.go lines 180-187): on a SaveFile error the file is simply
not appended; the error itself is dropped. -/
def saveToFile (env : ScanEnv) (file : FileMetadata) (files : List FileMetadata) : List FileMetadata :=
  if env.saveFileOk file then files ++ [file] else files

/-- The FileMetadata the parse sink constructs for one document
(service.go lines 78-85): Content, HelmID and IDInfo stay at their zero values. -/
def parseMk (scanID fileName originalData : String) (kind : FileKind) (id : Nat) (d : Document) : FileMetadata :=
  { id := id, scanID := scanID, document := d, originalData := originalData,
    kind := kind, fileName := fileName }

/-- The FileMetadata the resolve sink constructs for one document
(service.go lines 114-124): Content, HelmID and IDInfo are copied from the
rendered file. -/
def resolveMk (scanID : String) (kind : FileKind) (rfile : RenderedFile) (id : Nat) (d : Document) : FileMetadata :=
  { id := id, scanID := scanID, document := d, originalData := rfile.originalData,
    kind := kind, fileName := rfile.fileName, content := rfile.content,
    helmID := rfile.splitID, idInfo := rfile.idInfo }

/-- The per-document loop shared by both sinks: marshal check (failures skip the
document), then saveToFile. -/
def runDocLoop (env : ScanEnv) (mkFile : Nat → Document → FileMetadata) : List Document → SinkState → SinkState
  | [], st => st
  | d :: rest, st =>
    runDocLoop env mkFile rest
      (if env.marshalOk d then
        ⟨saveToFile env (mkFile st.nextID d) st.files, st.nextID + 1⟩
      else st)

/-- After the Go for-loop the local `err` holds the marshal result of the LAST
document (earlier failures were overwritten), and that is what the parse sink
wraps and returns. -/
def lastMarshalOk (env : ScanEnv) (docs : List Document) : Bool :=
  match docs.getLast? with
  | none => true
  | some d => env.marshalOk d

/-- The parse sink of StartScan (service.go lines 58-90): getContent, Parse,
then the document loop; the sink's return value is the wrap of the last marshal
error, not of any SaveFile error. -/
def parseSink (env : ScanEnv) (scanID fileName : String) (reads : List (List Char)) (st : SinkState) : SinkState × Except String Unit :=
  match (getContent reads).1 with
  | Except.error e => (st, Except.error e)
  | Except.ok contentChars =>
    match env.parse fileName (String.mk contentChars) with
    | Except.error e => (st, Except.error e)
    | Except.ok (docs, kind) =>
      (runDocLoop env (parseMk scanID fileName (String.mk contentChars) kind) docs st,
       if lastMarshalOk env docs then Except.ok () else Except.error "failed to save file content")

/-- The loop over rendered files in the resolve sink (service.go lines 101-127):
a parse error on one rendered file returns immediately, keeping whatever earlier
rendered files already appended. -/
def resolveRFiles (env : ScanEnv) (scanID : String) (kind : FileKind) : List RenderedFile → SinkState → SinkState × Except String Unit
  | [], st => (st, Except.ok ())
  | rfile :: rest, st =>
    match env.parse rfile.fileName rfile.content with
    | Except.error e => (st, Except.error e)
    | Except.ok (docs, _) =>
      resolveRFiles env scanID kind rest (runDocLoop env (resolveMk scanID kind rfile) docs st)

/-- The resolve sink of StartScan (service.go lines 91-129). -/
def resolveSink (env : ScanEnv) (scanID fileName : String) (st : SinkState) : SinkState × Except String Unit :=
  let kind := env.resolverGetType fileName
  if kind = FileKind.common then (st, Except.ok ())
  else
    match env.resolve fileName kind with
    | Except.error e => (st, Except.error e)
    | Except.ok rfiles => resolveRFiles env scanID kind rfiles st

/-- One enumerated source: either routed to the parse sink (with its reader) or
to the resolve sink. -/
inductive SourceItem where
  | parseFile (fileName : String) (reads : List (List Char))
  | resolveFile (fileName : String)

/-- GetSources as StartScan observes it: each file is routed to its sink; a sink
failure is logged and skipped (per-file isolation, spec section 4.1), so the
mutated `files` state survives it. -/
def runSources (env : ScanEnv) (scanID : String) : List SourceItem → SinkState → SinkState
  | [], st => st
  | SourceItem.parseFile fn reads :: rest, st =>
    runSources env scanID rest (parseSink env scanID fn reads st).1
  | SourceItem.resolveFile fn :: rest, st =>
    runSources env scanID rest (resolveSink env scanID fn st).1

/-- StartScan (service.go lines 52-142): run the sinks, inspect, save the
vulnerabilities.  The first component is the in-memory `files` list, the second
is StartScan's returned error value. -/
def startScan (env : ScanEnv) (scanID : String) (srcs : List SourceItem) : List FileMetadata × Except String Unit :=
  let st := runSources env scanID srcs ⟨[], 0⟩
  match env.inspect st.files with
  | Except.error _ => (st.files, Except.error "failed to inspect files")
  | Except.ok vulns =>
    (st.files,
     if env.saveVulns vulns then Except.ok () else Except.error "failed to save vulnerabilities")

/-- Modelled from the spec: the Helm `Resolver.Resolve` implementation is not
under src (only its test `TestHelm_Resolve` and its caller are).  Per spec
section 4.2, a missing or malformed chart yields an empty rendered set plus an
error, and a well-formed chart yields its rendered files. -/
inductive HelmChart where
  | malformed
  | wellFormed (rendered : List RenderedFile)

/-- Modelled from the spec: outcome of `Resolver.Resolve` on a Helm chart. -/
def helmResolve : HelmChart → Except String (List RenderedFile)
  | HelmChart.malformed => Except.error "failed to render chart"
  | HelmChart.wellFormed fs => Except.ok fs

/- ===== Helm line detector =====
   The `DetectKindLine.DetectLine` implementation is not under src; only its
   test `TestEngine_detectHelmLine` is.  The definitions below are modelled from
   spec section 4.5 (search-key segmentation, marker-anchored window, nesting by
   indentation, first-occurrence preference with parent-line fallback on
   ambiguity) together with the spec's Helm marker convention (section 6):
   reported line numbers are positions in the original template, so the injected
   `# KICS_HELM_ID_<n>:` marker lines do not count, and the result is remapped
   through IDInfo when an entry exists. -/

/-- One dot-separated search-key segment: a bare key or `key=value`. -/
structure Segment where
  key : String
  value : Option String
deriving DecidableEq

/-- Splits one segment on `=` into key and optional value. -/
def parseSegment (s : String) : Segment :=
  match splitChar '=' s.data with
  | [] => ⟨"", none⟩
  | [k] => ⟨String.mk k, none⟩
  | k :: vs => ⟨String.mk k, some (String.mk (joinChar '=' vs))⟩

/-- The YAML key of a line: text before the first colon, trimmed. -/
def keyOf (s : String) : String :=
  trimWS (String.mk ((splitChar ':' s.data).headD []))

/-- The YAML value of a line: text after the first colon, trimmed. -/
def valueOf (s : String) : String :=
  match splitChar ':' s.data with
  | [] => ""
  | _ :: rest => trimWS (String.mk (joinChar ':' rest))

/-- Whether a segment value is a Helm-rendered expression, wrapped in double
braces; such a value cannot be matched textually against the original template,
so it acts as a wildcard (the segment then identifies the sub-document and the
remaining path restarts at the document root, as in the spec's search-key
example). -/
def isTemplateValue (v : String) : Bool :=
  listIsPre ['\x7b', '\x7b'] v.data && listIsPre ['\x7d', '\x7d'] v.data.reverse

/-- Whether a line matches a segment: key equality, plus value equality for a
plain `key=value` segment (template values match any line value). -/
def segMatches (seg : Segment) (t : String) : Bool :=
  keyOf t == seg.key &&
    (match seg.value with
     | none => true
     | some v => isTemplateValue v || valueOf t == v)

/-- The line at an index (out of range reads as an empty line). -/
def lineAt (ls : List String) (i : Nat) : String := ls.getD i ""

/-- Whether a line is an injected Helm split marker comment. -/
def isMarkerLine (t : String) : Bool := listIsPre "# KICS_HELM_ID_".data t.data

/-- First index at or after `start` whose indentation closes the block of a
parent with indentation `pIndent` (end of that parent's nested block). -/
def blockEndIdx (ls : List String) (start pIndent : Nat) : Nat :=
  match ls.enum.find? (fun p => start ≤ p.1 && indentOf p.2 ≤ pIndent) with
  | some p => p.1
  | none => ls.length

/-- First index at or after `start` that starts another sub-document (a marker
line or a `---` separator); end of the current sub-document's window. -/
def docEndIdx (ls : List String) (start : Nat) : Nat :=
  match ls.enum.find? (fun p => start ≤ p.1 && (isMarkerLine p.2 || p.2 == "---")) with
  | some p => p.1
  | none => ls.length

/-- All candidate lines for a segment: indices in `[lo, hi)` at exactly the
expected nesting indentation whose key (and, for `key=value`, value) match. -/
def candidatesIn (ls : List String) (lo hi expIndent : Nat) (seg : Segment) : List Nat :=
  (ls.enum.filter (fun p =>
      lo ≤ p.1 && p.1 < hi && indentOf p.2 == expIndent && segMatches seg p.2)).map (fun p => p.1)

/-- Cursor state of the segment walk: remaining scan window, expected child
indentation, and the last successfully matched ancestor line (the fallback). -/
structure DetectCtx where
  lo : Nat
  hi : Nat
  expIndent : Nat
  parentIdx : Nat
deriving DecidableEq

/-- The window for the segments following a match at `i`: a segment whose value
is a Helm-rendered expression identifies the sub-document, so the path restarts
at the window root; a plain segment descends into the matched line's indentation
block, whose expected child indentation is that of its first line. -/
def nextCtx (ls : List String) (rootHi rootIndent : Nat) (seg : Segment) (i : Nat) : DetectCtx :=
  let isDocSel :=
    match seg.value with
    | some v => isTemplateValue v
    | none => false
  if isDocSel then ⟨i + 1, rootHi, rootIndent, i⟩
  else
    let bs := i + 1
    let be := blockEndIdx ls bs (indentOf (lineAt ls i))
    ⟨bs, be, indentOf (lineAt ls bs), i⟩

/-- Walks the segments: no candidate falls back to the last matched ancestor;
a unique candidate is taken; several candidates at the same nesting prefer the
first occurrence for an inner segment, while an ambiguous final segment falls
back to the parent line (spec section 4.5, duplicate-key handling). -/
def resolveSegs (ls : List String) (rootHi rootIndent : Nat) : List Segment → DetectCtx → Nat
  | [], ctx => ctx.parentIdx
  | seg :: rest, ctx =>
    match candidatesIn ls ctx.lo ctx.hi ctx.expIndent seg with
    | [] => ctx.parentIdx
    | [i] =>
      if rest.isEmpty then i
      else resolveSegs ls rootHi rootIndent rest (nextCtx ls rootHi rootIndent seg i)
    | i :: _ :: _ =>
      if rest.isEmpty then ctx.parentIdx
      else resolveSegs ls rootHi rootIndent rest (nextCtx ls rootHi rootIndent seg i)

/-- Number of injected marker lines strictly before index `f`; these lines are
not part of the original template, so they are subtracted from reported
positions. -/
def markersBefore (ls : List String) (f : Nat) : Nat :=
  ((ls.take f).filter isMarkerLine).length

/-- The numeric id of a `KICS_HELM_ID_<n>` search-key anchor. -/
def idNumOf (s : String) : Nat :=
  if listIsPre "KICS_HELM_ID_".data s.data then (digitsToNat (s.data.drop 13)).getD 0 else 0

/-- Remaps a reported line through the sub-document's IDInfo entry when one
exists. -/
def remapLine (idInfo : List (Nat × List (Nat × Nat))) (n line : Nat) : Nat :=
  match idInfo.lookup n with
  | none => line
  | some mp => (mp.lookup line).getD line

/-- model.VulnLines. -/
structure VulnLines where
  Position : Int
  Line : String
deriving DecidableEq

/-- model.VulnerabilityLines (the Go field name `LineWithVulnerabilty` is kept). -/
structure VulnerabilityLines where
  Line : Int
  VulnLine : List VulnLines
  LineWithVulnerabilty : String
deriving DecidableEq

/-- The physical (0-based) line of OriginalData matched by a search key: the
window is anchored at the line holding the first segment's split marker
(`# <anchor>:`), and the remaining segments are walked by nesting. -/
def detectIdx (file : FileMetadata) (searchKey : String) : Option Nat :=
  let ls := strLines file.originalData
  match (splitChar '.' searchKey.data).map (fun cs => parseSegment (String.mk cs)) with
  | [] => none
  | s0 :: rest =>
    match ls.findIdx? (fun t => t == "# " ++ s0.key ++ ":") with
    | none => none
    | some m =>
      let rootLo := m + 1
      let rootHi := docEndIdx ls rootLo
      let rootIndent := indentOf (lineAt ls rootLo)
      some (resolveSegs ls rootHi rootIndent rest ⟨rootLo, rootHi, rootIndent, m⟩)

/-- Modelled from the spec: `DetectKindLine.DetectLine` for Helm files (the
implementation is not under src; only its test is).  Finds the matched line,
reports its 1-based position minus the injected marker lines above it, remaps it
through IDInfo, and excerpts `outputLines` lines starting at the match.  An
unanchored key reports line -1. -/
def DetectLine (file : FileMetadata) (searchKey : String) (outputLines : Nat) : VulnerabilityLines :=
  match detectIdx file searchKey with
  | none => ⟨-1, [], ""⟩
  | some f =>
    let ls := strLines file.originalData
    let anchor := String.mk ((splitChar '.' searchKey.data).headD [])
    let adjusted := f + 1 - markersBefore ls f
    let final := remapLine file.idInfo (idNumOf anchor) adjusted
    let vulnLines := (List.range outputLines).map
      (fun k => VulnLines.mk (Int.ofNat (final + k)) (lineAt ls (f + k)))
    ⟨Int.ofNat final, vulnLines, lineAt ls f⟩

/-- Extracts `<n>` from a marker string of the exact form `# KICS_HELM_ID_<n>:`. -/
def markerNumOf (s : String) : Option Nat :=
  if listIsPre "# KICS_HELM_ID_".data s.data && listIsPre [':'] s.data.reverse then
    digitsToNat ((s.data.drop 15).dropLast)
  else none

/- ===== Fixtures: TestEngine_detectHelmLine inputs (src/unnamed/part_001) ===== -/

/-- Lines of the `test_detect_helm_line` OriginalData (test-connection.yaml). -/
def testConnectionLines : List String :=
  ["# KICS_HELM_ID_0:",
   "apiVersion: v1",
   "kind: Pod",
   "metadata:",
   "  name: \"\x7b\x7b include \"test_helm.fullname\" . \x7d\x7d-test-connection\"",
   "  labels:",
   "    \x7b\x7b- include \"test_helm.labels\" . | nindent 4 \x7d\x7d",
   "  annotations:",
   "\t\"helm.sh/hook\": test",
   "spec:",
   "  containers:",
   "    - name: wget",
   "      image: busybox",
   "\t  command: ['wget']",
   "\t  args: ['\x7b\x7b include \"test_helm.fullname\" . \x7d\x7d:\x7b\x7b .Values.service.port \x7d\x7d']",
   "    restartPolicy: Never"]

/-- OriginalData of the `test_detect_helm_line` case. -/
def testConnectionData : String := String.intercalate "\n" testConnectionLines ++ "\n"

/-- Lines of the `test_dup_values` OriginalData: same document with a second
`containers:` sibling under the same `spec:`. -/
def dupValuesLines : List String :=
  testConnectionLines ++
  ["  containers:",
   "    - name: wget2",
   "      image: busybox",
   "\t  command: ['wget']",
   "\t  args: ['\x7b\x7b include \"test_helm.fullname\" . \x7d\x7d:\x7b\x7b .Values.service.port \x7d\x7d']",
   "    restartPolicy: Never"]

/-- OriginalData of the `test_dup_values` case. -/
def dupValuesData : String := String.intercalate "\n" dupValuesLines ++ "\n"

/-- Lines of the `test_detect_helm_with_dups` OriginalData: two rendered
sub-documents separated by `---`, marked `# KICS_HELM_ID_0:` and
`# KICS_HELM_ID_1:`. -/
def dupsLines : List String :=
  testConnectionLines ++
  ["---",
   "# KICS_HELM_ID_1:",
   "apiVersion: v1",
   "kind: Pod",
   "metadata:",
   "  name: \"\x7b\x7b include \"test_helm.fullname\" . \x7d\x7d-test-dups\"",
   "  labels:",
   "    \x7b\x7b- include \"test_helm.labels\" . | nindent 4 \x7d\x7d",
   "  annotations:",
   "\t\"helm.sh/hook\": test",
   "spec:",
   "  containers:",
   "    - name: wget",
   "      image: busybox",
   "\t  command: ['wget']",
   "\t  args: ['\x7b\x7b include \"test_helm.fullname\" . \x7d\x7d:\x7b\x7b .Values.service.port \x7d\x7d']",
   "    restartPolicy: Never"]

/-- OriginalData of the `test_detect_helm_with_dups` case. -/
def dupsData : String := String.intercalate "\n" dupsLines ++ "\n"

/-- The search key of the first two detector test cases. -/
def searchKeyID0 : String :=
  "KICS_HELM_ID_0.metadata.name=\x7b\x7bRELEASE-NAME-test_helm-test-connection\x7d\x7d.spec.containers"

/-- The search key of the third detector test case, anchored at the second
sub-document. -/
def searchKeyID1 : String :=
  "KICS_HELM_ID_1.metadata.name=\x7b\x7bRELEASE-NAME-test_helm-test-connection\x7d\x7d.spec.containers"

/-- The FileMetadata of the `test_detect_helm_line` case. -/
def testFile1 : FileMetadata :=
  { id := 1, scanID := "console", document := ⟨""⟩, kind := FileKind.helm,
    fileName := "test-connection.yaml", helmID := "# KICS_HELM_ID_0",
    originalData := testConnectionData, content := "", idInfo := [] }

/-- The FileMetadata of the `test_dup_values` case, including its IDInfo map
(keys 0..19, 21, 22 mapped to themselves; 20 absent). -/
def testFile2 : FileMetadata :=
  { id := 1, scanID := "console", document := ⟨""⟩, kind := FileKind.helm,
    fileName := "test-dup_values.yaml", helmID := "# KICS_HELM_ID_0",
    originalData := dupValuesData, content := "",
    idInfo := [(0, (List.range 20).map (fun i => (i, i)) ++ [(21, 21), (22, 22)])] }

/-- The FileMetadata of the `test_detect_helm_with_dups` case. -/
def testFile3 : FileMetadata :=
  { id := 1, scanID := "console", document := ⟨""⟩, kind := FileKind.helm,
    fileName := "test-dups.yaml", helmID := "# KICS_HELM_ID_1",
    originalData := dupsData, content := "", idInfo := [] }

/- ===== Fixtures: TestHelm_Resolve expected outputs (src/pkg/kics/service.go).
   The Helm resolver implementation is not under src; these are the rendered
   files its in-repo test pins as `want`, used here as its modelled output. -/

/-- Rendered Content of test_helm/templates/service.yaml, as the resolver test
expects it: a leading blank line, a `# Source:` comment, then the marker. -/
def serviceContentLines : List String :=
  ["",
   "# Source: test_helm/templates/service.yaml",
   "# KICS_HELM_ID_0:",
   "apiVersion: v1",
   "kind: Service",
   "metadata:",
   "  name: RELEASE-NAME-test_helm",
   "  labels:",
   "    helm.sh/chart: test_helm-0.1.0",
   "    app.kubernetes.io/name: test_helm",
   "    app.kubernetes.io/instance: RELEASE-NAME",
   "    app.kubernetes.io/version: \"1.16.0\"",
   "    app.kubernetes.io/managed-by: Helm",
   "spec:",
   "  type: ClusterIP",
   "  ports:",
   "    - port: 80",
   "      targetPort: http",
   "      protocol: TCP",
   "      name: http",
   "  selector:",
   "    app.kubernetes.io/name: test_helm",
   "    app.kubernetes.io/instance: RELEASE-NAME"]

/-- Rendered Content of test_helm/templates/service.yaml. -/
def serviceContent : String := String.intercalate "\n" serviceContentLines ++ "\n"

/-- OriginalData (the untouched template) of test_helm/templates/service.yaml. -/
def serviceOriginal : String :=
  String.intercalate "\n"
    ["# KICS_HELM_ID_0:",
     "apiVersion: v1",
     "kind: Service",
     "metadata:",
     "  name: \x7b\x7b include \"test_helm.fullname\" . \x7d\x7d",
     "  labels:",
     "    \x7b\x7b- include \"test_helm.labels\" . | nindent 4 \x7d\x7d",
     "spec:",
     "  type: \x7b\x7b .Values.service.type \x7d\x7d",
     "  ports:",
     "    - port: \x7b\x7b .Values.service.port \x7d\x7d",
     "      targetPort: http",
     "      protocol: TCP",
     "      name: http",
     "  selector:",
     "    \x7b\x7b- include \"test_helm.selectorLabels\" . | nindent 4 \x7d\x7d"] ++ "\n"

/-- The rendered file of the `test_resolve_helm` case; note it carries no
IDInfo (the test's expected RenderedFile leaves the field at its zero value). -/
def serviceRendered : RenderedFile :=
  { fileName := "../../../test/fixtures/test_helm/templates/service.yaml",
    content := serviceContent, originalData := serviceOriginal,
    splitID := "# KICS_HELM_ID_0:", idInfo := [] }

/-- Rendered Content of test_helm_subchart/templates/serviceaccount.yaml. -/
def serviceaccountContent : String :=
  String.intercalate "\n"
    ["",
     "# Source: test_helm_subchart/templates/serviceaccount.yaml",
     "# KICS_HELM_ID_1:",
     "apiVersion: v1",
     "kind: ServiceAccount",
     "metadata:",
     "  name: RELEASE-NAME-test_helm_subchart",
     "  labels:",
     "    helm.sh/chart: test_helm_subchart-0.1.0",
     "    app.kubernetes.io/name: test_helm_subchart",
     "    app.kubernetes.io/instance: RELEASE-NAME",
     "    app.kubernetes.io/version: \"1.16.0\"",
     "    app.kubernetes.io/managed-by: Helm"] ++ "\n"

/-- OriginalData of test_helm_subchart/templates/serviceaccount.yaml. -/
def serviceaccountOriginal : String :=
  String.intercalate "\n"
    ["\x7b\x7b- if .Values.serviceAccount.create -\x7d\x7d",
     "# KICS_HELM_ID_1:",
     "apiVersion: v1",
     "kind: ServiceAccount",
     "metadata:",
     "  name: \x7b\x7b include \"test_helm_subchart.serviceAccountName\" . \x7d\x7d",
     "  labels:",
     "    \x7b\x7b- include \"test_helm_subchart.labels\" . | nindent 4 \x7d\x7d",
     "  \x7b\x7b- with .Values.serviceAccount.annotations \x7d\x7d",
     "  annotations:",
     "    \x7b\x7b- toYaml . | nindent 4 \x7d\x7d",
     "  \x7b\x7b- end \x7d\x7d",
     "\x7b\x7b- end \x7d\x7d"] ++ "\n"

/-- First rendered file of the `test_with_dependecies` case. -/
def serviceaccountRendered : RenderedFile :=
  { fileName := "../../../test/fixtures/test_helm_subchart/templates/serviceaccount.yaml",
    content := serviceaccountContent, originalData := serviceaccountOriginal,
    splitID := "# KICS_HELM_ID_1:", idInfo := [] }

/-- Rendered Content of test_helm_subchart/charts/subchart/templates/service.yaml. -/
def subchartServiceContent : String :=
  String.intercalate "\n"
    ["",
     "# Source: test_helm_subchart/charts/subchart/templates/service.yaml",
     "# KICS_HELM_ID_0:",
     "apiVersion: v1",
     "kind: Service",
     "metadata:",
     "  name: RELEASE-NAME-subchart",
     "  labels:",
     "    helm.sh/chart: subchart-0.1.0",
     "    app.kubernetes.io/name: subchart",
     "    app.kubernetes.io/instance: RELEASE-NAME",
     "    app.kubernetes.io/version: \"1.16.0\"",
     "    app.kubernetes.io/managed-by: Helm",
     "spec:",
     "  type: ClusterIP",
     "  ports:",
     "    - port: 80",
     "      targetPort: http",
     "      protocol: TCP",
     "      name: http",
     "  selector:",
     "    app.kubernetes.io/name: subchart",
     "    app.kubernetes.io/instance: RELEASE-NAME"] ++ "\n"

/-- OriginalData of test_helm_subchart/charts/subchart/templates/service.yaml. -/
def subchartServiceOriginal : String :=
  String.intercalate "\n"
    ["# KICS_HELM_ID_0:",
     "apiVersion: v1",
     "kind: Service",
     "metadata:",
     "  name: \x7b\x7b include \"subchart.fullname\" . \x7d\x7d",
     "  labels:",
     "    \x7b\x7b- include \"subchart.labels\" . | nindent 4 \x7d\x7d",
     "spec:",
     "  type: \x7b\x7b .Values.service.type \x7d\x7d",
     "  ports:",
     "    - port: \x7b\x7b .Values.service.port \x7d\x7d",
     "      targetPort: http",
     "      protocol: TCP",
     "      name: http",
     "  selector:",
     "    \x7b\x7b- include \"subchart.selectorLabels\" . | nindent 4 \x7d\x7d"] ++ "\n"

/-- Second rendered file of the `test_with_dependecies` case. -/
def subchartServiceRendered : RenderedFile :=
  { fileName := "../../../test/fixtures/test_helm_subchart/charts/subchart/templates/service.yaml",
    content := subchartServiceContent, originalData := subchartServiceOriginal,
    splitID := "# KICS_HELM_ID_0:", idInfo := [] }

/-- The rendered files of the `test_resolve_helm` case. -/
def testHelmFiles : List RenderedFile := [serviceRendered]

/-- The rendered files of the `test_with_dependecies` case, in the test's order. -/
def testHelmSubchartFiles : List RenderedFile := [serviceaccountRendered, subchartServiceRendered]

/- ===== CloudFront TLS policy (CxPolicy appended to
   src/assets/queries/terraform/aws/lambda_permission_principal_is_wildcard/test/negative.tf) ===== -/

/-- A viewer_certificate block; absent attributes are `none` (an absent
attribute makes the corresponding Rego expression undefined). -/
structure ViewerCertificate where
  cloudfront_default_certificate : Option Bool
  minimum_protocol_version : Option String
deriving DecidableEq

/-- An aws_cloudfront_distribution resource (the `[name]` index of the Rego
rule). -/
structure CloudFrontDistribution where
  name : String
  viewer_certificate : ViewerCertificate
deriving DecidableEq

/-- A RawFinding as the policy emits it. -/
structure RawFinding where
  searchKey : String
  issueType : String
  keyExpectedValue : String
  keyActualValue : String
deriving DecidableEq

/-- checkMinProtocolVersion: defined-and-true exactly for "TLSv1.1" and
"TLSv1.2" (two Rego facts). -/
def checkMinProtocolVersion (v : String) : Bool :=
  v == "TLSv1.1" || v == "TLSv1.2"

/-- Whether `checkMinProtocolVersion(resource.viewer_certificate.minimum_protocol_version)`
evaluates to a defined true value; an absent attribute leaves the call
undefined, which the rule's `not` treats like false. -/
def mpvOK : Option String → Bool
  | some v => checkMinProtocolVersion v
  | none => false

/-- The finding the rule constructs for a distribution (sprintf with the
resource name). -/
def cloudfrontFinding (d : CloudFrontDistribution) : RawFinding :=
  { searchKey := "resource.aws_cloudfront_distribution[" ++ d.name ++
      "].viewer_certificate.minimum_protocol_version",
    issueType := "IncorrectValue",
    keyExpectedValue := "resource.aws_cloudfront_distribution[" ++ d.name ++
      "].viewer_certificate.minimum_protocol_version is TLSv1.1 or TLSv1.2",
    keyActualValue := "resource.aws_cloudfront_distribution[" ++ d.name ++
      "].viewer_certificate.minimum_protocol_version isn't TLSv1.1 or TLSv1.2" }

/-- The CxPolicy rule body, per resource: fires when
`viewer_certificate.cloudfront_default_certificate == false` holds and
`not checkMinProtocolVersion(...)` succeeds. -/
def CxPolicy (d : CloudFrontDistribution) : List RawFinding :=
  if d.viewer_certificate.cloudfront_default_certificate == some false
      && !mpvOK d.viewer_certificate.minimum_protocol_version then
    [cloudfrontFinding d]
  else []

/- ===== Concrete scan environments used to evaluate the pipeline ===== -/

/-- A sample parsed document. -/
def docA : Document := ⟨"docA"⟩

/-- A chart rendered file whose content parses. -/
def rfGood : RenderedFile :=
  { fileName := "good.yaml", content := "good-content", originalData := "good-orig",
    splitID := "# KICS_HELM_ID_0:", idInfo := [] }

/-- A chart rendered file whose content fails to parse. -/
def rfBad : RenderedFile :=
  { fileName := "bad.yaml", content := "bad-content", originalData := "bad-orig",
    splitID := "# KICS_HELM_ID_1:", idInfo := [] }

/-- Environment where resolving a chart succeeds with two rendered
sub-templates and parsing fails on the second one. -/
def envPartialChart : ScanEnv :=
  { parse := fun fn _ =>
      if fn == "good.yaml" then Except.ok ([docA], FileKind.helm)
      else Except.error "failed to parse file content",
    marshalOk := fun _ => true,
    saveFileOk := fun _ => true,
    resolverGetType := fun _ => FileKind.helm,
    resolve := fun _ _ => Except.ok [rfGood, rfBad],
    inspect := fun _ => Except.ok [],
    saveVulns := fun _ => true }

/-- Environment whose resolver rejects its chart as malformed. -/
def envBadChart : ScanEnv :=
  { envPartialChart with resolve := fun _ _ => helmResolve HelmChart.malformed }

/-- Environment where every file parses to one document and every storage
SaveFile call fails. -/
def envSaveFileFails : ScanEnv :=
  { parse := fun _ _ => Except.ok ([docA], FileKind.kubernetes),
    marshalOk := fun _ => true,
    saveFileOk := fun _ => false,
    resolverGetType := fun _ => FileKind.common,
    resolve := fun _ _ => Except.error "unused",
    inspect := fun _ => Except.ok [],
    saveVulns := fun _ => true }

/-- The same environment with a storage whose SaveFile succeeds. -/
def envSaveFileOk : ScanEnv := { envSaveFileFails with saveFileOk := fun _ => true }

/-- The same environment with a storage whose SaveVulnerabilities fails. -/
def envSaveVulnsFails : ScanEnv := { envSaveFileOk with saveVulns := fun _ => false }

/-- A one-file source listing routed to the parse sink. -/
def srcOneFile : List SourceItem := [SourceItem.parseFile "a.yaml" [['a']]]

/-- Environment whose resolver returns the `test_resolve_helm` fixture output. -/
def envTestHelm : ScanEnv :=
  { envSaveFileOk with
    parse := fun _ _ => Except.ok ([docA], FileKind.helm),
    resolverGetType := fun _ => FileKind.helm,
    resolve := fun _ _ => Except.ok testHelmFiles }

/-- A minimal rendered file with a non-empty split marker. -/
def rfSmall : RenderedFile :=
  { fileName := "f.yaml", content := "c", originalData := "o",
    splitID := "# KICS_HELM_ID_0:", idInfo := [] }

/-- Environment whose resolver returns just `rfSmall`. -/
def envSmallHelm : ScanEnv :=
  { envTestHelm with resolve := fun _ _ => Except.ok [rfSmall] }

/-- The aws_cloudfront_distribution of scenario S2: default certificate
disabled, minimum_protocol_version "TLSv1". -/
def distTLSv1 : CloudFrontDistribution :=
  { name := "positive1",
    viewer_certificate :=
      { cloudfront_default_certificate := some false,
        minimum_protocol_version := some "TLSv1" } }

/- ===== Theorems ===== -/

/-- Closed form of the getContent loop: with a budget of `m` remaining reads the
loop succeeds exactly when at most `m` reads remain, and on failure it has
accumulated the first `m + 1` read payloads. -/
theorem getContentAux_spec (reads : List (List Char)) :
    ∀ (m : Nat) (content : List Char),
      getContentAux reads (m : Int) content =
        if reads.length ≤ m then
          (Except.ok (content ++ reads.flatten), content ++ reads.flatten)
        else
          (Except.error "file size limit exceeded", content ++ (reads.take (m + 1)).flatten) := by
  induction reads with
  | nil =>
    intro m content
    have h : ¬((m : Int) < 0) := by omega
    simp [getContentAux, h]
  | cons r rest ih =>
    intro m content
    cases m with
    | zero =>
      have h1 : getContentAux (r :: rest) ((0 : Nat) : Int) content
          = getContentAux rest (((0 : Nat) : Int) - 1) (content ++ r) := by
        simp [getContentAux]
      have h2 : getContentAux rest (((0 : Nat) : Int) - 1) (content ++ r)
          = (Except.error "file size limit exceeded", content ++ r) := by
        cases rest <;> simp [getContentAux]
      rw [h1, h2]
      simp
    | succ k =>
      have hpos : ¬(((k + 1 : Nat) : Int) < 0) := by omega
      have hc : ((k + 1 : Nat) : Int) - 1 = ((k : Nat) : Int) := by push_cast; ring
      have hstep : getContentAux (r :: rest) ((k + 1 : Nat) : Int) content
          = getContentAux rest ((k : Nat) : Int) (content ++ r) := by
        rw [show getContentAux (r :: rest) ((k + 1 : Nat) : Int) content
            = if ((k + 1 : Nat) : Int) < 0 then (Except.error "file size limit exceeded", content)
              else getContentAux rest (((k + 1 : Nat) : Int) - 1) (content ++ r) from rfl,
          if_neg hpos, hc]
      rw [hstep, ih k (content ++ r)]
      by_cases h : rest.length ≤ k
      · have h2 : (r :: rest).length ≤ k + 1 := by simpa using Nat.succ_le_succ h
        simp [h, h2, List.append_assoc]
      · have h2 : ¬((r :: rest).length ≤ k + 1) := by
          simp only [List.length_cons]
          omega
        simp [h, h2, List.append_assoc, List.take_succ_cons]

/-- getContent succeeds exactly when the reader delivers its content in at most
5 reads; otherwise it errors having accumulated the first 6 read payloads. -/
theorem getContent_eq (reads : List (List Char)) :
    getContent reads =
      if reads.length ≤ 5 then (Except.ok reads.flatten, reads.flatten)
      else (Except.error "file size limit exceeded", (reads.take 6).flatten) := by
  simpa [getContent] using getContentAux_spec reads 5 []

/-- Total length of a concatenation whose pieces all have length `c`. -/
theorem flatten_length_eq (c : Nat) :
    ∀ l : List (List Char), (∀ r ∈ l, r.length = c) → l.flatten.length = l.length * c := by
  intro l
  induction l with
  | nil => intro _; simp
  | cons a t ih =>
    intro h
    have ha : a.length = c := h a (by simp)
    have ht := ih (fun r hr => h r (by simp [hr]))
    simp only [List.flatten_cons, List.length_append, List.length_cons, ha, ht]
    ring

/-- Total length of a concatenation whose pieces all have length at most `c`. -/
theorem flatten_length_le (c : Nat) :
    ∀ l : List (List Char), (∀ r ∈ l, r.length ≤ c) → l.flatten.length ≤ l.length * c := by
  intro l
  induction l with
  | nil => intro _; simp
  | cons a t ih =>
    intro h
    have ha : a.length ≤ c := h a (by simp)
    have ht := ih (fun r hr => h r (by simp [hr]))
    calc (a :: t).flatten.length = a.length + t.flatten.length := by simp [List.flatten_cons]
      _ ≤ c + t.length * c := Nat.add_le_add ha ht
      _ = (t.length + 1) * c := by ring
      _ = (a :: t).length * c := by simp

/-- Claim C1 (amended): getContent enforces its cap by counting Read calls, not
bytes — it errors exactly when the reader needs more than 5 reads.  For a
reader that returns full `chunkSize` payloads (every read but the last exactly
`chunkSize` bytes, all reads non-empty and at most `chunkSize`), this accepts
every input of at most 5 MiB, returning it in full as the concatenation of the
chunks read, rejects every input above 5 MiB, and a rejected read accumulates
at most cap + chunkSize bytes. -/
theorem C1_getContent_read_cap (reads : List (List Char))
    (hfull : ∀ r ∈ reads.dropLast, r.length = chunkSize)
    (hle : ∀ r ∈ reads, r.length ≤ chunkSize)
    (hne : ∀ r ∈ reads, r ≠ []) :
    (getContent reads =
       if reads.length ≤ 5 then (Except.ok reads.flatten, reads.flatten)
       else (Except.error "file size limit exceeded", (reads.take 6).flatten))
    ∧ (reads.flatten.length ≤ 5 * chunkSize →
        getContent reads = (Except.ok reads.flatten, reads.flatten))
    ∧ (5 * chunkSize < reads.flatten.length →
        (getContent reads).1 = Except.error "file size limit exceeded"
        ∧ (getContent reads).2.length ≤ 5 * chunkSize + chunkSize) := by
  refine ⟨getContent_eq reads, ?_, ?_⟩
  · intro hsize
    have hlen : reads.length ≤ 5 := by
      by_contra hgt
      push_neg at hgt
      rcases List.eq_nil_or_concat reads with hnil | ⟨t, last, hconcat⟩
      · subst hnil; simp at hgt
      · subst hconcat
        simp only [List.concat_eq_append] at hfull hle hne hsize hgt
        have hdrop : (t ++ [last]).dropLast = t := by simp
        have htc : ∀ r ∈ t, r.length = chunkSize := by
          intro r hr
          exact hfull r (by rw [hdrop]; exact hr)
        have htlen : t.flatten.length = t.length * chunkSize := flatten_length_eq chunkSize t htc
        have hlast : last ≠ [] := hne last (by simp)
        have hlast1 : 1 ≤ last.length := by
          rcases last with _ | ⟨c, cs⟩
          · exact absurd rfl hlast
          · simp
        have hflat : (t ++ [last]).flatten.length = t.flatten.length + last.length := by
          simp [List.flatten_append]
        have ht5 : 5 ≤ t.length := by
          simp only [List.length_append, List.length_cons, List.length_nil] at hgt
          omega
        have hmul : 5 * chunkSize ≤ t.length * chunkSize := Nat.mul_le_mul_right chunkSize ht5
        omega
    rw [getContent_eq reads]
    simp [hlen]
  · intro hsize
    have hlen : ¬(reads.length ≤ 5) := by
      intro hle5
      have hb : reads.flatten.length ≤ reads.length * chunkSize := flatten_length_le chunkSize reads hle
      have hb2 : reads.length * chunkSize ≤ 5 * chunkSize := Nat.mul_le_mul_right chunkSize hle5
      omega
    constructor
    · rw [getContent_eq reads]; simp [hlen]
    · rw [getContent_eq reads]
      simp only [hlen, if_neg, if_false]
      have h1 : ∀ r ∈ reads.take 6, r.length ≤ chunkSize :=
        fun r hr => hle r (List.mem_of_mem_take hr)
      have h2 : (reads.take 6).flatten.length ≤ (reads.take 6).length * chunkSize :=
        flatten_length_le chunkSize _ h1
      have h3 : (reads.take 6).length ≤ 6 := by
        rw [List.length_take]; exact min_le_left _ _
      have h4 : (reads.take 6).length * chunkSize ≤ 6 * chunkSize :=
        Nat.mul_le_mul_right chunkSize h3
      omega

/-- Claim C1 witness: a single 1-byte read is accepted and returned in full. -/
theorem C1_getContent_read_cap_witness :
    getContent [['a']] = (Except.ok ['a'], ['a']) := by
  have h := (C1_getContent_read_cap [['a']] (by decide) (by decide) (by decide)).2.1 (by decide)
  simpa using h

/-- Claim C1 counterexample: a reader that delivers 6 bytes in 6 short reads is
rejected even though its cumulative size, 6 bytes, is far below the 5 MiB cap —
so "fails exactly when the cumulative size exceeds the cap" is false for
arbitrary input readers. -/
theorem C1_getContent_counterexample :
    (getContent (List.replicate 6 ['a'])).1 = Except.error "file size limit exceeded"
    ∧ (List.replicate 6 ['a']).flatten.length = 6
    ∧ 6 ≤ 5 * chunkSize
    ∧ (List.replicate 6 ['a']).map List.length = List.replicate 6 1
    ∧ 1 ≤ chunkSize := by
  exact ⟨rfl, by decide, by decide, by decide, by decide⟩

/-- Claim C2: on the test-connection.yaml Helm input with marker
`# KICS_HELM_ID_0:` and the search key
`KICS_HELM_ID_0.metadata.name={{RELEASE-NAME-test_helm-test-connection}}.spec.containers`,
DetectLine with one output line returns Line 10, the single excerpt
(position 10, "  containers:"), and LineWithVulnerabilty "  containers:". -/
theorem C2_detect_helm_line :
    DetectLine testFile1 searchKeyID0 1 =
      ⟨10, [⟨10, "  containers:"⟩], "  containers:"⟩ := by
  decide

/-- Claim C3: on the same input with two `containers:` siblings under one
`spec:`, the final segment is ambiguous (two candidate lines at the same
nesting), and DetectLine falls back to the enclosing parent: Line 9 with
LineWithVulnerabilty "spec:". -/
theorem C3_dup_key_fallback :
    DetectLine testFile2 searchKeyID0 1 = ⟨9, [⟨9, "spec:"⟩], "spec:"⟩
    ∧ candidatesIn (strLines dupValuesData) 10 22 2 ⟨"containers", none⟩ = [10, 16] := by
  exact ⟨by decide, by decide⟩

/-- Claim C4: on the two-document input, a search key anchored at
KICS_HELM_ID_1 starts its window at the second marker (physical line index 17)
and matches a line of the second sub-document (physical index 27, after the
marker), reported as Line 26 with "  containers:". -/
theorem C4_multi_document :
    DetectLine testFile3 searchKeyID1 1 = ⟨26, [⟨26, "  containers:"⟩], "  containers:"⟩
    ∧ (strLines dupsData).findIdx? (fun t => t == "# KICS_HELM_ID_1:") = some 17
    ∧ detectIdx testFile3 searchKeyID1 = some 27
    ∧ 17 < 27 := by
  exact ⟨by decide, by decide, by decide, by decide⟩

/-- Any file in the state after the document loop was either already there or
was built by the loop's constructor. -/
theorem runDocLoop_mem (env : ScanEnv) (mkFile : Nat → Document → FileMetadata) :
    ∀ (docs : List Document) (st : SinkState) (m : FileMetadata),
      m ∈ (runDocLoop env mkFile docs st).files →
      m ∈ st.files ∨ ∃ i d, m = mkFile i d := by
  intro docs
  induction docs with
  | nil =>
    intro st m h
    exact Or.inl h
  | cons d rest ih =>
    intro st m h
    have hh : runDocLoop env mkFile (d :: rest) st
        = runDocLoop env mkFile rest
            (if env.marshalOk d then ⟨saveToFile env (mkFile st.nextID d) st.files, st.nextID + 1⟩
             else st) := rfl
    rw [hh] at h
    rcases ih _ m h with h1 | h2
    · by_cases hm : env.marshalOk d = true
      · rw [if_pos hm] at h1
        by_cases hs : env.saveFileOk (mkFile st.nextID d) = true
        · simp only [saveToFile, if_pos hs] at h1
          rcases List.mem_append.mp h1 with ha | hb
          · exact Or.inl ha
          · exact Or.inr ⟨st.nextID, d, by simpa using hb⟩
        · simp only [saveToFile, if_neg hs] at h1
          exact Or.inl h1
      · rw [if_neg hm] at h1
        exact Or.inl h1
    · exact Or.inr h2

/-- Claim C5 counterexample: resolving the chart succeeds with two rendered
sub-templates and parsing the second one fails; the sink returns an error, yet
the scan's file list has already gained the entry from the chart's first
sub-template — so "the scan's FileMetadata list gains no entry from that chart"
fails for a sub-template parse failure. -/
theorem C5_counterexample :
    resolveSink envPartialChart "scan" "chart" ⟨[], 0⟩ =
      (⟨[resolveMk "scan" FileKind.helm rfGood 0 docA], 1⟩,
       Except.error "failed to parse file content")
    ∧ (resolveMk "scan" FileKind.helm rfGood 0 docA).fileName = "good.yaml" := by
  exact ⟨rfl, rfl⟩

/-- Claim C5 (amended): a Resolve failure surfaces the error and leaves the
scan's file list untouched; a parse failure on a rendered sub-template surfaces
the error and aborts the chart's remaining sub-templates, but entries already
saved from the chart's earlier sub-templates remain in the list. -/
theorem C5_resolve_failure (env : ScanEnv) (scanID chart : String) (st : SinkState) (e : String) :
    (env.resolverGetType chart ≠ FileKind.common →
      env.resolve chart (env.resolverGetType chart) = Except.error e →
      resolveSink env scanID chart st = (st, Except.error e))
    ∧ (∀ (kind k : FileKind) (f1 f2 : RenderedFile) (docs : List Document),
        env.parse f1.fileName f1.content = Except.ok (docs, k) →
        env.parse f2.fileName f2.content = Except.error e →
        resolveRFiles env scanID kind [f1, f2] st =
          (runDocLoop env (resolveMk scanID kind f1) docs st, Except.error e)) := by
  constructor
  · intro hkind hres
    simp only [resolveSink, if_neg hkind, hres]
  · intro kind k f1 f2 docs hp1 hp2
    simp only [resolveRFiles, hp1, hp2]

/-- Claim C5 witness: a malformed chart resolves to an error and contributes
nothing to the file list. -/
theorem C5_resolve_failure_witness :
    resolveSink envBadChart "scan" "chart" ⟨[], 0⟩ =
      (⟨[], 0⟩, Except.error "failed to render chart") :=
  (C5_resolve_failure envBadChart "scan" "chart" ⟨[], 0⟩ "failed to render chart").1
    (by decide) rfl

/-- Claim C6 counterexample: with a storage whose SaveFile always fails,
scanning one parseable file returns no error — the SaveFile error is swallowed
by saveToFile and the file is merely dropped from the list (the run with a
succeeding storage shows the same scan would have saved one file). -/
theorem C6_counterexample :
    (startScan envSaveFileFails "scan" srcOneFile).2 = Except.ok ()
    ∧ (startScan envSaveFileFails "scan" srcOneFile).1 = []
    ∧ (startScan envSaveFileOk "scan" srcOneFile).1 =
        [parseMk "scan" "a.yaml" "a" FileKind.kubernetes 0 docA] := by
  exact ⟨rfl, rfl, rfl⟩

/-- Claim C6 (amended): a SaveVulnerabilities failure is propagated and
StartScan returns an error; a SaveFile failure is not propagated — the parse
sink's returned status is independent of SaveFile's outcome. -/
theorem C6_storage_errors (env : ScanEnv) (scanID : String) (srcs : List SourceItem)
    (vulns : List Vuln) :
    (env.inspect (runSources env scanID srcs ⟨[], 0⟩).files = Except.ok vulns →
      env.saveVulns vulns = false →
      (startScan env scanID srcs).2 = Except.error "failed to save vulnerabilities")
    ∧ (∀ (fileName : String) (reads : List (List Char)) (st : SinkState),
        (parseSink env scanID fileName reads st).2 =
          (parseSink { env with saveFileOk := fun _ => false } scanID fileName reads st).2) := by
  constructor
  · intro hins hsv
    simp only [startScan, hins, hsv]
    rfl
  · intro fileName reads st
    have hpe : ({ env with saveFileOk := fun _ => false } : ScanEnv).parse = env.parse := rfl
    rcases hgc : (getContent reads).1 with e | cs
    · simp only [parseSink, hpe, hgc]
    · rcases hp : env.parse fileName (String.mk cs) with e | pr
      · simp only [parseSink, hpe, hgc, hp]
      · rcases pr with ⟨docs, kind⟩
        simp only [parseSink, hpe, hgc, hp]
        rfl

/-- Claim C6 witness: a failing SaveVulnerabilities aborts the scan with the
propagated error. -/
theorem C6_storage_errors_witness :
    (startScan envSaveVulnsFails "scan" []).2 = Except.error "failed to save vulnerabilities" :=
  (C6_storage_errors envSaveVulnsFails "scan" [] []).1 rfl rfl

/-- Claim C7 counterexample: the resolve sink applied to the resolver's own
test_resolve_helm fixture output produces a FileMetadata of Kind Helm whose
IDInfo is empty (the test's expected RenderedFile carries none), refuting
"IDInfo non-empty for every Helm FileMetadata". -/
theorem C7_counterexample :
    (resolveSink envTestHelm "scan" "../../../test/fixtures/test_helm" ⟨[], 0⟩).1.files =
      [resolveMk "scan" FileKind.helm serviceRendered 0 docA]
    ∧ (resolveMk "scan" FileKind.helm serviceRendered 0 docA).kind = FileKind.helm
    ∧ (resolveMk "scan" FileKind.helm serviceRendered 0 docA).helmID = "# KICS_HELM_ID_0:"
    ∧ (resolveMk "scan" FileKind.helm serviceRendered 0 docA).idInfo = [] := by
  exact ⟨rfl, rfl, rfl, rfl⟩

/-- Claim C7 (amended): every FileMetadata the resolve sink saves carries
HelmID equal to its rendered file's SplitID — hence non-empty whenever the
resolver's SplitIDs are non-empty — and IDInfo copied verbatim from the
resolver, which, per the resolver's own test fixtures, may be empty. -/
theorem C7_helm_metadata (env : ScanEnv) (scanID : String) (kind : FileKind)
    (rfiles : List RenderedFile) (st : SinkState)
    (hsplit : ∀ rf ∈ rfiles, rf.splitID ≠ "") :
    ∀ m ∈ (resolveRFiles env scanID kind rfiles st).1.files,
      m ∈ st.files ∨
        (m.helmID ≠ ""
         ∧ ∃ rf ∈ rfiles, m.helmID = rf.splitID ∧ m.idInfo = rf.idInfo ∧ m.kind = kind) := by
  have aux : ∀ (rs : List RenderedFile) (st0 : SinkState) (m : FileMetadata),
      m ∈ (resolveRFiles env scanID kind rs st0).1.files →
      m ∈ st0.files ∨ ∃ rf ∈ rs, m.helmID = rf.splitID ∧ m.idInfo = rf.idInfo ∧ m.kind = kind := by
    intro rs
    induction rs with
    | nil =>
      intro st0 m hm
      exact Or.inl hm
    | cons rf rest ih =>
      intro st0 m hm
      simp only [resolveRFiles] at hm
      rcases hp : env.parse rf.fileName rf.content with e | pr
      · rw [hp] at hm
        exact Or.inl hm
      · rcases pr with ⟨docs, k⟩
        rw [hp] at hm
        rcases ih _ m hm with h1 | ⟨rf', hrf', hprops⟩
        · rcases runDocLoop_mem env (resolveMk scanID kind rf) docs st0 m h1 with h2 | ⟨i, d, hmd⟩
          · exact Or.inl h2
          · refine Or.inr ⟨rf, by simp, ?_⟩
            subst hmd
            exact ⟨rfl, rfl, rfl⟩
        · exact Or.inr ⟨rf', by simp [hrf'], hprops⟩
  intro m hm
  rcases aux rfiles st m hm with h | ⟨rf, hrf, h1, h2, h3⟩
  · exact Or.inl h
  · refine Or.inr ⟨?_, rf, hrf, h1, h2, h3⟩
    rw [h1]
    exact hsplit rf hrf

/-- Claim C7 witness: the metadata saved for a rendered file with a non-empty
SplitID carries that SplitID as its HelmID. -/
theorem C7_helm_metadata_witness :
    resolveMk "scan" FileKind.helm rfSmall 0 docA ∈ ([] : List FileMetadata)
    ∨ ((resolveMk "scan" FileKind.helm rfSmall 0 docA).helmID ≠ ""
        ∧ ∃ rf ∈ [rfSmall],
            (resolveMk "scan" FileKind.helm rfSmall 0 docA).helmID = rf.splitID
            ∧ (resolveMk "scan" FileKind.helm rfSmall 0 docA).idInfo = rf.idInfo
            ∧ (resolveMk "scan" FileKind.helm rfSmall 0 docA).kind = FileKind.helm) :=
  C7_helm_metadata envSmallHelm "scan" FileKind.helm [rfSmall] ⟨[], 0⟩ (by decide)
    (resolveMk "scan" FileKind.helm rfSmall 0 docA) (by decide)

/-- Claim C8 counterexample: the Content of the test_resolve_helm rendered file
does not begin with the marker comment — its first line is empty, and the
marker is only its third line. -/
theorem C8_counterexample :
    (strLines serviceRendered.content).headD "missing" = ""
    ∧ (strLines serviceRendered.content).headD "missing" ≠ "# KICS_HELM_ID_0:"
    ∧ (strLines serviceRendered.content).getD 2 "missing" = "# KICS_HELM_ID_0:" := by
  exact ⟨by decide, by decide, by decide⟩

/-- Claim C8 (amended): in every rendered sub-document of the resolver's test
fixtures the marker comment equals the SplitID, has the exact form
`# KICS_HELM_ID_<n>:`, and appears as the third line of Content — after a
leading empty line and a `# Source:` comment — and the `<n>` are zero-based and
unique within one chart rendering. -/
theorem C8_marker_placement :
    ((testHelmFiles ++ testHelmSubchartFiles).all (fun rf =>
        ((strLines rf.content).getD 2 "" == rf.splitID)
        && ((strLines rf.content).getD 0 "" == "")
        && listIsPre "# Source: ".data ((strLines rf.content).getD 1 "").data)) = true
    ∧ testHelmFiles.map (fun rf => markerNumOf rf.splitID) = [some 0]
    ∧ testHelmSubchartFiles.map (fun rf => markerNumOf rf.splitID) = [some 1, some 0] := by
  exact ⟨by decide, by decide, by decide⟩

/-- Claim C9 counterexample: the parse sink saves a directly-parsed file whose
Content is the empty string while its OriginalData is the file's text, so
Content differs from OriginalData for every non-empty file. -/
theorem C9_counterexample :
    (parseSink envSaveFileOk "scan" "a.yaml" [['a']] ⟨[], 0⟩).1.files =
      [parseMk "scan" "a.yaml" "a" FileKind.kubernetes 0 docA]
    ∧ (parseMk "scan" "a.yaml" "a" FileKind.kubernetes 0 docA).content = ""
    ∧ (parseMk "scan" "a.yaml" "a" FileKind.kubernetes 0 docA).originalData = "a"
    ∧ (parseMk "scan" "a.yaml" "a" FileKind.kubernetes 0 docA).content
      ≠ (parseMk "scan" "a.yaml" "a" FileKind.kubernetes 0 docA).originalData := by
  exact ⟨rfl, rfl, rfl, by decide⟩

/-- Claim C9 (amended): every FileMetadata created by the parse sink leaves the
Content field at the Go zero value, the empty string (Content equals
OriginalData only for an empty file). -/
theorem C9_parse_sink_content (env : ScanEnv) (scanID fileName : String)
    (reads : List (List Char)) (st : SinkState) :
    ∀ m ∈ (parseSink env scanID fileName reads st).1.files,
      m ∈ st.files ∨ m.content = "" := by
  intro m hm
  rcases hgc : (getContent reads).1 with e | cs
  · simp only [parseSink, hgc] at hm
    exact Or.inl hm
  · rcases hp : env.parse fileName (String.mk cs) with e | pr
    · simp only [parseSink, hgc, hp] at hm
      exact Or.inl hm
    · rcases pr with ⟨docs, kind⟩
      simp only [parseSink, hgc, hp] at hm
      rcases runDocLoop_mem env (parseMk scanID fileName (String.mk cs) kind) docs st m hm with
        h | ⟨i, d, hmd⟩
      · exact Or.inl h
      · subst hmd
        exact Or.inr rfl

/-- Claim C9 witness: the single file saved by a concrete parse-sink run has an
empty Content. -/
theorem C9_parse_sink_content_witness :
    parseMk "scan" "a.yaml" "a" FileKind.kubernetes 0 docA ∈ ([] : List FileMetadata)
    ∨ (parseMk "scan" "a.yaml" "a" FileKind.kubernetes 0 docA).content = "" :=
  C9_parse_sink_content envSaveFileOk "scan" "a.yaml" [['a']] ⟨[], 0⟩
    (parseMk "scan" "a.yaml" "a" FileKind.kubernetes 0 docA) (by decide)

/-- `checkMinProtocolVersion` is defined-and-true exactly on "TLSv1.1" and
"TLSv1.2" (an absent attribute leaves the call undefined). -/
theorem mpvOK_false_iff (o : Option String) :
    mpvOK o = false ↔ ¬(o = some "TLSv1.1" ∨ o = some "TLSv1.2") := by
  rcases o with _ | v
  · simp [mpvOK]
  · simp [mpvOK, checkMinProtocolVersion, not_or]

/-- Claim C10: on any aws_cloudfront_distribution with
viewer_certificate.cloudfront_default_certificate = false, the CloudFront TLS
policy produces a finding — with issueType IncorrectValue and a searchKey
ending in viewer_certificate.minimum_protocol_version — exactly when
minimum_protocol_version is neither "TLSv1.1" nor "TLSv1.2" (so "TLSv1" yields
the finding), and produces no finding otherwise. -/
theorem C10_cloudfront_tls (d : CloudFrontDistribution)
    (hcert : d.viewer_certificate.cloudfront_default_certificate = some false) :
    (CxPolicy d ≠ [] ↔
      ¬(d.viewer_certificate.minimum_protocol_version = some "TLSv1.1"
        ∨ d.viewer_certificate.minimum_protocol_version = some "TLSv1.2"))
    ∧ (CxPolicy d = [] ∨ CxPolicy d = [cloudfrontFinding d])
    ∧ (cloudfrontFinding d).issueType = "IncorrectValue"
    ∧ (∃ p, (cloudfrontFinding d).searchKey = p ++ "viewer_certificate.minimum_protocol_version")
    ∧ (d.viewer_certificate.minimum_protocol_version = some "TLSv1" →
        CxPolicy d = [cloudfrontFinding d]) := by
  have hc : (d.viewer_certificate.cloudfront_default_certificate == some false) = true := by
    rw [hcert]
    rfl
  refine ⟨?_, ?_, rfl, ?_, ?_⟩
  · by_cases hm : mpvOK d.viewer_certificate.minimum_protocol_version = true
    · have h1 : CxPolicy d = [] := by simp [CxPolicy, hc, hm]
      have h2 : ¬(mpvOK d.viewer_certificate.minimum_protocol_version = false) := by simp [hm]
      rw [mpvOK_false_iff] at h2
      simp [h1, not_not.mp h2]
    · have hm' : mpvOK d.viewer_certificate.minimum_protocol_version = false := by
        simpa using hm
      have h1 : CxPolicy d = [cloudfrontFinding d] := by simp [CxPolicy, hc, hm']
      rw [h1, ← mpvOK_false_iff]
      simp [hm']
  · by_cases hm : mpvOK d.viewer_certificate.minimum_protocol_version = true
    · exact Or.inl (by simp [CxPolicy, hc, hm])
    · have hm' : mpvOK d.viewer_certificate.minimum_protocol_version = false := by
        simpa using hm
      exact Or.inr (by simp [CxPolicy, hc, hm'])
  · refine ⟨"resource.aws_cloudfront_distribution[" ++ d.name ++ "].", ?_⟩
    show "resource.aws_cloudfront_distribution[" ++ d.name ++
        "].viewer_certificate.minimum_protocol_version"
      = "resource.aws_cloudfront_distribution[" ++ d.name ++ "]."
        ++ "viewer_certificate.minimum_protocol_version"
    have h2 : ("]." ++ "viewer_certificate.minimum_protocol_version" : String)
        = "].viewer_certificate.minimum_protocol_version" := by decide
    rw [← h2, ← String.append_assoc]
  · intro hmp
    have hm' : mpvOK d.viewer_certificate.minimum_protocol_version = false := by
      rw [hmp]
      rfl
    simp [CxPolicy, hc, hm']

/-- Claim C10 witness: the S2 distribution (default certificate false,
minimum_protocol_version "TLSv1") yields exactly the IncorrectValue finding. -/
theorem C10_cloudfront_tls_witness :
    CxPolicy distTLSv1 = [cloudfrontFinding distTLSv1]
    ∧ (cloudfrontFinding distTLSv1).issueType = "IncorrectValue" :=
  ⟨(C10_cloudfront_tls distTLSv1 rfl).2.2.2.2 rfl, rfl⟩
